import Mathlib

/-!
A shallow embedding of the BatchBook journaling backend, restricted to the
slice its specification covers: the realtime collaboration gateway
(realtime/socketServer.js), the versioning controller
(controllers/versionController.js), the journal CRUD controller
(controllers/journalController.js) and the Entry/Version mongoose models
(models/Entry.js, models/Version.js).

Modelling conventions: Mongo ObjectIds are natural numbers, server timestamps
are a natural-number clock carried in the server state, the document database
is a pair of in-memory lists of documents, and fallible HTTP handlers return
`Except`.  JavaScript runtime failures (TypeError, mongoose ValidationError)
that express-async-handler converts into error responses are modelled as an
explicit error constructor.
-/

namespace BatchBook

/-- A journal entry document (entrySchema in models/Entry.js).  The schema is
strict (the mongoose default), so a document carries exactly these paths;
the schema option `timestamps: true` adds `createdAt` and `updatedAt`. -/
structure Entry where
  id : Nat
  user : Nat
  title : String
  content : String
  mood : Option String := none
  tags : List String := []
  createdAt : Nat := 0
  updatedAt : Nat := 0
deriving Repr, DecidableEq

/-- A version document (versionSchema in models/Version.js): a snapshot of an
entry, referencing its parent through the required path `entry` and its owner
through the required path `user`, with `source` one of auto/manual/restore
(default auto). -/
structure Version where
  id : Nat
  entry : Nat
  user : Nat
  title : String
  content : String
  tags : List String := []
  note : Option String := none
  source : String := "auto"
  createdAt : Nat := 0
deriving Repr, DecidableEq

/-- Server state: the user ids present in the users collection, the entries
and versions collections, the server clock used for timestamps, and the next
fresh ObjectId. -/
structure St where
  users : List Nat
  entries : List Entry
  versions : List Version
  now : Nat
  nextId : Nat := 0
deriving Repr, DecidableEq

/-- Error responses produced by the HTTP controllers.  `jsError` stands for a
runtime exception (TypeError, mongoose ValidationError) that
express-async-handler forwards to the error middleware. -/
inductive HErr where
  | badRequest (msg : String)
  | unauthorized (msg : String)
  | forbidden (msg : String)
  | notFound (msg : String)
  | jsError (msg : String)
deriving Repr, DecidableEq

/-- Entry.findById. -/
def findEntryById (st : St) (eid : Nat) : Option Entry :=
  st.entries.find? (fun e => e.id == eid)

/-- Entry.findOne with filter on both the id and the owner. -/
def findEntryOwned (st : St) (eid uid : Nat) : Option Entry :=
  st.entries.find? (fun e => e.id == eid && e.user == uid)

/-- Version.findById. -/
def findVersionById (st : St) (vid : Nat) : Option Version :=
  st.versions.find? (fun v => v.id == vid)

/-- Write an updated entry document back to its collection slot. -/
def putEntry (st : St) (e : Entry) : St :=
  { st with entries := st.entries.map (fun x => if x.id == e.id then e else x) }

/-- Reading the path `entryId` on a Version document.  versionSchema declares
`entry`, not `entryId`, and the schema is strict (the mongoose default), so no
Version document carries an `entryId` path: the property read yields
`undefined`, modelled as `none`. -/
def Version.readEntryId (_ : Version) : Option Nat := none

/-- Truthiness of an optional string field of a request body: a missing field
and the empty string are both falsy in JavaScript. -/
def truthy : Option String → Bool
  | none => false
  | some s => !(s == "")

/-- The JavaScript expression `x || dflt` on an optional string. -/
def jsOrElse (x : Option String) (dflt : String) : String :=
  if truthy x then x.getD dflt else dflt

/-- Whitespace stripped by String.prototype.trim (the characters relevant to
this code base). -/
def isJsSpace (c : Char) : Bool :=
  c == ' ' || c == '\t' || c == '\n' || c == '\r'

/-- The JavaScript `s.trim()`, also the mongoose `trim: true` schema setter:
strip leading and trailing whitespace. -/
def jsTrim (s : String) : String :=
  String.mk (((s.data.dropWhile isJsSpace).reverse.dropWhile isJsSpace).reverse)

/-- Tag sanitation from the pre('save') hook on entrySchema:
tags.map(tag => tag.trim()).filter(tag => tag.length > 0). -/
def sanitizeTags (tags : List String) : List String :=
  (tags.map jsTrim).filter (fun t => t.length > 0)

/-- The pre('save') hook on entrySchema applied to the document being saved:
when the tags path is modified, trim every tag and drop the ones that are
empty after trimming. -/
def entryPreSaveHook (e : Entry) (tagsModified : Bool) : Entry :=
  if tagsModified then { e with tags := sanitizeTags e.tags } else e

/-- The mood enumeration of entrySchema (an absent mood is allowed). -/
def validMood : Option String → Bool
  | none => true
  | some m =>
      ["happy", "sad", "neutral", "angry", "excited", "anxious", "grateful",
       "tired", "other"].contains m

/-- Schema validation run by entry.save(): title required and at most 100
characters, content required, mood restricted to the enumeration.  Titles
reach validation already trimmed by the schema setter. -/
def validEntry (e : Entry) : Bool :=
  !(e.title == "") && e.title.length ≤ 100 && !(e.content == "") && validMood e.mood

/-- Mongoose entry.save() on an existing document: run the pre-save hook,
validate, stamp `updatedAt` when the document was modified, and write the
document back.  The two flags reflect the modified-paths bookkeeping of the
calling handler. -/
def saveEntryDoc (st : St) (e : Entry) (tagsModified docModified : Bool) :
    Except HErr (St × Entry) :=
  let e1 := entryPreSaveHook e tagsModified
  if !(validEntry e1) then Except.error (HErr.jsError "ValidationError")
  else
    let e2 := if docModified then { e1 with updatedAt := st.now } else e1
    Except.ok (putEntry st e2, e2)

/-- POST /api/entries (journalController.createJournal): reject a missing or
empty title/content with 400, otherwise build a new Entry owned by the
requesting user (title trimmed by the schema setter; a new document has every
path modified, so the tags hook runs) and insert it with server-assigned
timestamps. -/
def createJournal (st : St) (uid : Nat) (title content : Option String) :
    Except HErr (St × Entry) :=
  if !(truthy title && truthy content) then
    Except.error (HErr.badRequest
      "Please provide both a title and content for the journal entry.")
  else
    let e0 : Entry :=
      { id := st.nextId, user := uid,
        title := jsTrim (title.getD ""), content := content.getD "",
        createdAt := st.now, updatedAt := st.now }
    let e1 := entryPreSaveHook e0 true
    if !(validEntry e1) then Except.error (HErr.jsError "ValidationError")
    else
      Except.ok ({ st with entries := st.entries ++ [e1], nextId := st.nextId + 1 }, e1)

/-- PUT /api/entries/:id (journalController.updateJournal): 404 when the entry
is missing, 401 when the requester does not own it; otherwise
`journal.title = title || journal.title` (the schema setter trims the value
being set) and `journal.content = content || journal.content`, then
journal.save().  Mongoose marks a path modified only when the value set
differs from the stored one, and save() stamps `updatedAt` exactly when some
path is modified. -/
def updateJournal (st : St) (uid eid : Nat) (title content : Option String) :
    Except HErr (St × Entry) :=
  match findEntryById st eid with
  | none => Except.error (HErr.notFound "Journal entry not found.")
  | some j =>
    if !(j.user == uid) then
      Except.error (HErr.unauthorized
        "You are not authorized to update this journal entry.")
    else
      let newTitle := jsTrim (jsOrElse title j.title)
      let newContent := jsOrElse content j.content
      let modified := !(newTitle == j.title) || !(newContent == j.content)
      saveEntryDoc st { j with title := newTitle, content := newContent } false modified

/-- DELETE /api/entries/:id (journalController.deleteJournal): 404 when the
entry is missing, 401 when the requester does not own it, otherwise
journal.deleteOne() removes the document with that id.  Nothing else is
touched. -/
def deleteJournal (st : St) (uid eid : Nat) : Except HErr (St × String) :=
  match findEntryById st eid with
  | none => Except.error (HErr.notFound "Journal entry not found.")
  | some j =>
    if !(j.user == uid) then
      Except.error (HErr.unauthorized
        "You are not authorized to delete this journal entry.")
    else
      Except.ok ({ st with entries := st.entries.filter (fun e => !(e.id == eid)) },
        "Journal entry successfully deleted.")

/-- Insertion step of the Mongo sort `{ createdAt: -1 }`. -/
def insertDescByCreatedAt (v : Version) : List Version → List Version
  | [] => [v]
  | w :: ws =>
    if v.createdAt ≤ w.createdAt then w :: insertDescByCreatedAt v ws
    else v :: w :: ws

/-- The Mongo sort `{ createdAt: -1 }` on a version query result: newest
first. -/
def sortDescByCreatedAt : List Version → List Version
  | [] => []
  | v :: vs => insertDescByCreatedAt v (sortDescByCreatedAt vs)

/-- GET /api/entries/:entryId/versions (versionController.getEntryVersions):
ownership gate via Entry.findOne({_id, user}) answered with 404, then
`Version.find({ entryId }).sort({ createdAt: -1 })` — a query filtering on
the non-schema path `entryId` (the schema path is `entry`), which no stored
document matches. -/
def getEntryVersions (st : St) (uid eid : Nat) : Except HErr (List Version) :=
  match findEntryOwned st eid uid with
  | none =>
    Except.error (HErr.notFound
      "Entry not found or you do not have permission to view it.")
  | some _ =>
    Except.ok (sortDescByCreatedAt
      (st.versions.filter (fun v => v.readEntryId == some eid)))

/-- POST /api/entries/:entryId/versions/:versionId/restore
(versionController.restoreVersion).  Missing entry or foreign owner gives 403;
a missing version gives 404.  When the version exists, the guard evaluates
`versionToRestore.entryId.toString()`: `entryId` is not a schema path, the
read yields `undefined` and the call throws a TypeError, which
express-async-handler surfaces as an error response.  The snapshot
`Version.create({entryId, title, content})` further down could itself never
succeed either: strict mode drops the unknown `entryId` key and the required
paths `entry` and `user` are absent, a mongoose ValidationError. -/
def restoreVersion (st : St) (uid eid vid : Nat) : Except HErr (St × Entry) :=
  match findEntryById st eid with
  | none =>
    Except.error (HErr.forbidden "You are not authorized to modify this entry.")
  | some entry =>
    if !(entry.user == uid) then
      Except.error (HErr.forbidden "You are not authorized to modify this entry.")
    else
      match findVersionById st vid with
      | none =>
        Except.error (HErr.notFound "Version to restore not found for this entry.")
      | some versionToRestore =>
        match versionToRestore.readEntryId with
        | none =>
          Except.error (HErr.jsError
            "TypeError: Cannot read properties of undefined (reading toString)")
        | some ventry =>
          if !(ventry == eid) then
            Except.error (HErr.notFound "Version to restore not found for this entry.")
          else
            Except.error (HErr.jsError
              "ValidationError: paths entry and user are required")

/-- Events a server socket can emit (realtime/socketServer.js). -/
inductive SEvent where
  | typing (userId : Nat) (contentPreview : String)
  | synced (entryId : Nat) (updatedAt : Nat) (message : String)
  | saveError (entryId : Option Nat) (message : String)
deriving Repr, DecidableEq

/-- An emission together with its addressing: socket.emit reaches the sender
only, io.to(room).emit reaches every member of the room (the sender included
when it joined), socket.to(room).emit reaches every member except the sender,
and `refused` is a rejected connection handshake. -/
inductive Effect where
  | toSender (ev : SEvent)
  | toRoom (room : Nat) (ev : SEvent)
  | toRoomExceptSender (room : Nat) (ev : SEvent)
  | refused (reason : String)
deriving Repr, DecidableEq

/-- The connections that receive an effect, given the sending connection and
the membership list of the addressed room. -/
def Effect.audience (sender : Nat) (members : List Nat) : Effect → List Nat
  | .toSender _ => [sender]
  | .toRoom _ _ => members
  | .toRoomExceptSender _ _ => members.filter (fun c => !(c == sender))
  | .refused _ => [sender]

/-- Entry.findOneAndUpdate({_id: entryId, user}, {content, title}, {new: true})
with mongoose timestamps: when a document matches both conditions it is
updated (schema setters run on update paths, so the title is trimmed),
`updatedAt` is stamped, and the updated document is returned; otherwise
null. -/
def findOneAndUpdateOwned (st : St) (eid uid : Nat) (content title : String) :
    Option (St × Entry) :=
  match findEntryOwned st eid uid with
  | none => none
  | some e =>
    let e2 := { e with content := content, title := jsTrim title, updatedAt := st.now }
    some (putEntry st e2, e2)

/-- The `save` handler of initSocketServer: bail out silently on a falsy
entryId; otherwise run the ownership-gated conditional update.  On success
broadcast `synced` (carrying the entry id and the new `updatedAt`) to the
whole room through io.to; on a miss emit `saveError` to the sender only.  No
Version document is written on this path. -/
def handleSave (st : St) (uid : Nat) (entryId : Option Nat) (content title : String) :
    St × List Effect :=
  match entryId with
  | none => (st, [])
  | some eid =>
    match findOneAndUpdateOwned st eid uid content title with
    | some (st1, e) =>
      (st1, [Effect.toRoom eid (SEvent.synced e.id e.updatedAt "Entry saved successfully.")])
    | none =>
      (st, [Effect.toSender (SEvent.saveError (some eid)
        "Save failed: Entry not found or permission denied.")])

/-- Messages a connected client can send to the gateway. -/
inductive ClientMsg where
  | joinEntry (entryId : Option Nat)
  | typing (entryId : Option Nat) (contentPreview : String)
  | save (entryId : Option Nat) (content : String) (title : String)
deriving Repr, DecidableEq

/-- One authenticated connection handling one incoming message: the new server
state, the updated list of joined rooms, and the emitted effects.  joinEntry
and typing ignore a falsy entryId; typing relays to the room minus the
sender. -/
def handleMsg (st : St) (uid : Nat) (rooms : List Nat) :
    ClientMsg → St × List Nat × List Effect
  | .joinEntry none => (st, rooms, [])
  | .joinEntry (some eid) => (st, eid :: rooms, [])
  | .typing none _ => (st, rooms, [])
  | .typing (some eid) preview =>
      (st, rooms, [Effect.toRoomExceptSender eid (SEvent.typing uid preview)])
  | .save eid content title =>
      let r := handleSave st uid eid content title
      (r.1, rooms, r.2)

/-- Run a sequence of messages on an authenticated connection. -/
def runMsgs (st : St) (uid : Nat) (rooms : List Nat) :
    List ClientMsg → St × List Nat × List Effect
  | [] => (st, rooms, [])
  | m :: ms =>
    let r1 := handleMsg st uid rooms m
    let r2 := runMsgs r1.1 uid r1.2.1 ms
    (r2.1, r2.2.1, r1.2.2 ++ r2.2.2)

/-- The io.use authentication middleware of initSocketServer: a missing
handshake token is refused, a token that fails verification is refused, a
token whose user no longer exists is refused; on success the decoded user id
is bound to the socket.  `jwtVerify` abstracts jwt.verify(token, JWT_SECRET),
returning the embedded user id or failing. -/
def socketAuth (st : St) (jwtVerify : String → Option Nat) (token : Option String) :
    Except String Nat :=
  match token with
  | none => Except.error "Authentication error: No token provided."
  | some t =>
    match jwtVerify t with
    | none => Except.error "Authentication error: Invalid token."
    | some uid =>
      if st.users.contains uid then Except.ok uid
      else Except.error "Authentication error: User not found."

/-- A complete socket session.  The connection handler — and with it the
joinEntry/typing/save listeners — is only installed for sockets the
authentication middleware accepted, so a refused session emits exactly the
refusal reason and leaves the server state untouched. -/
def runSession (st : St) (jwtVerify : String → Option Nat) (token : Option String)
    (msgs : List ClientMsg) : St × List Effect :=
  match socketAuth st jwtVerify token with
  | Except.error reason => (st, [Effect.refused reason])
  | Except.ok uid =>
    let r := runMsgs st uid [] msgs
    (r.1, r.2.2)

/-- Helper: removing the unique element carrying a given key from a list whose
keys are distinct shortens it by exactly one. -/
theorem length_filter_out_key {α β : Type} [DecidableEq β] (f : α → β) (b : β) :
    ∀ l : List α, (l.map f).Nodup → (∃ x ∈ l, f x = b) →
      (l.filter (fun a => !(f a == b))).length + 1 = l.length := by
  intro l
  induction l with
  | nil => intro _ hx; rcases hx with ⟨x, hx, _⟩; cases hx
  | cons a l ih =>
    intro hn hx
    rw [List.map_cons, List.nodup_cons] at hn
    by_cases hab : f a = b
    · have hall : l.filter (fun x => !(f x == b)) = l := by
        apply List.filter_eq_self.mpr
        intro x hxl
        simp only [Bool.not_eq_true', beq_eq_false_iff_ne, ne_eq]
        intro hfx
        exact hn.1 (hab ▸ hfx ▸ List.mem_map_of_mem f hxl)
      simp [List.filter_cons, hab, hall]
    · have hx2 : ∃ x ∈ l, f x = b := by
        rcases hx with ⟨x, hxm, hxb⟩
        cases hxm with
        | head => exact absurd hxb hab
        | tail _ hm => exact ⟨x, hm, hxb⟩
      have := ih hn.2 hx2
      simp only [List.filter_cons, hab, List.length_cons]
      simp only [beq_eq_false_iff_ne, ne_eq, hab, not_false_eq_true, Bool.not_eq_true',
        if_pos, List.length_cons]
      omega

/-- C3: a `save` event naming an entryId whose entry does not exist or is
owned by a different user leaves the server state (in particular every entry)
unchanged and produces exactly one `saveError` emission addressed to the
sender alone; no `synced` (or any other) room broadcast occurs. -/
theorem save_denied_is_sender_scoped_and_pure
    (st : St) (uid eid : Nat) (content title : String)
    (h : ∀ e ∈ st.entries, e.id = eid → e.user ≠ uid) :
    handleSave st uid (some eid) content title =
      (st, [Effect.toSender (SEvent.saveError (some eid)
        "Save failed: Entry not found or permission denied.")])
    ∧ (∀ members, Effect.audience uid members
        (Effect.toSender (SEvent.saveError (some eid)
          "Save failed: Entry not found or permission denied.")) = [uid])
    ∧ (∀ room ev, Effect.toRoom room ev ∉
        (handleSave st uid (some eid) content title).2) := by
  have hfind : findEntryOwned st eid uid = none := by
    unfold findEntryOwned
    rw [List.find?_eq_none]
    intro e he
    simp only [Bool.and_eq_true, beq_iff_eq, not_and]
    intro h1 h2
    exact h e he h1 h2
  refine ⟨?_, fun members => rfl, ?_⟩
  · unfold handleSave findOneAndUpdateOwned
    simp [hfind]
  · intro room ev
    unfold handleSave findOneAndUpdateOwned
    simp [hfind]

/-- C5: a `save` event whose conditional ownership-gated update matches the
entry updates that entry (content, trimmed title, fresh `updatedAt`) and
broadcasts one `synced` event carrying the entry id and the new modification
timestamp through io.to, whose audience is the full room membership, the
sender included. -/
theorem save_success_broadcasts_synced
    (st : St) (uid eid : Nat) (content title : String) (e : Entry)
    (h : findEntryOwned st eid uid = some e) :
    handleSave st uid (some eid) content title =
      (putEntry st { e with content := content, title := jsTrim title, updatedAt := st.now },
       [Effect.toRoom eid (SEvent.synced e.id st.now "Entry saved successfully.")])
    ∧ (∀ members, Effect.audience uid members
        (Effect.toRoom eid (SEvent.synced e.id st.now "Entry saved successfully.")) =
          members) := by
  refine ⟨?_, fun members => rfl⟩
  unfold handleSave findOneAndUpdateOwned
  simp [h]

/-- C8: saving an Entry whose tags path was set stores only nonempty trimmed
forms of the submitted tags, preserves their relative order (the stored list
is a sublist of the trimmed submission), and on the concrete submission
[" work ", "", "Life "] stores exactly ["work", "Life"]. -/
theorem tags_sanitized_on_save (e : Entry) (ts : List String) :
    (∀ t ∈ (entryPreSaveHook { e with tags := ts } true).tags,
        0 < t.length ∧ ∃ s ∈ ts, t = jsTrim s)
    ∧ List.Sublist (entryPreSaveHook { e with tags := ts } true).tags (ts.map jsTrim)
    ∧ (ts = [" work ", "", "Life "] →
        (entryPreSaveHook { e with tags := ts } true).tags = ["work", "Life"]) := by
  have key : (entryPreSaveHook { e with tags := ts } true).tags = sanitizeTags ts := rfl
  refine ⟨?_, ?_, ?_⟩
  · intro t ht
    rw [key] at ht
    unfold sanitizeTags at ht
    have hmem := List.mem_filter.mp ht
    have hlen : 0 < t.length := by
      have := hmem.2
      simpa using this
    rcases List.mem_map.mp hmem.1 with ⟨s, hs, hst⟩
    exact ⟨hlen, s, hs, hst.symm⟩
  · rw [key]
    exact List.filter_sublist _
  · intro hts
    rw [key, hts]
    decide

/-- C9: deleting an entry succeeds exactly when the requester owns an entry
with that id, and a successful delete removes exactly that entry (ids being
unique in the collection) while the versions collection — the entry's history
included — is left completely untouched. -/
theorem delete_owner_gated_and_versions_preserved
    (st : St) (uid eid : Nat)
    (hnodup : (st.entries.map Entry.id).Nodup) :
    ((deleteJournal st uid eid).isOk = true ↔
        ∃ e ∈ st.entries, e.id = eid ∧ e.user = uid)
    ∧ (∀ st1 msg, deleteJournal st uid eid = Except.ok (st1, msg) →
        st1.versions = st.versions ∧ st1.users = st.users
        ∧ st1.entries = st.entries.filter (fun e => !(e.id == eid))
        ∧ st1.entries.length + 1 = st.entries.length) := by
  constructor
  · cases hf : findEntryById st eid with
    | none =>
      have hnone : ∀ e ∈ st.entries, ¬(e.id = eid) := by
        intro e he
        have := (List.find?_eq_none.mp hf) e he
        simpa using this
      simp only [deleteJournal, hf]
      constructor
      · intro hk; simp [Except.isOk, Except.toBool] at hk
      · rintro ⟨e, he, hid, _⟩; exact absurd hid (hnone e he)
    | some j =>
      have hj1 : j.id = eid := by
        have := List.find?_some hf
        simpa using this
      have hj2 : j ∈ st.entries := List.mem_of_find?_eq_some hf
      simp only [deleteJournal, hf]
      by_cases hu : j.user = uid
      · simp only [hu, beq_self_eq_true, Bool.not_true, Bool.false_eq_true, if_false]
        simp only [Except.isOk, Except.toBool]
        constructor
        · intro _; exact ⟨j, hj2, hj1, hu⟩
        · intro _; trivial
      · have hbu : (j.user == uid) = false := by simp [hu]
        simp only [hbu, Bool.not_false, if_true]
        constructor
        · intro hk; simp [Except.isOk, Except.toBool] at hk
        · rintro ⟨e, he, hid, huser⟩
          have he2 : e = j := List.inj_on_of_nodup_map hnodup he hj2 (hid.trans hj1.symm)
          exact absurd (he2 ▸ huser) hu
  · intro st1 msg hok
    unfold deleteJournal at hok
    cases hf : findEntryById st eid with
    | none => rw [hf] at hok; cases hok
    | some j =>
      rw [hf] at hok
      by_cases hu : j.user = uid
      · have hbu : (j.user == uid) = true := by simp [hu]
        simp only [hbu, Bool.not_true, Bool.false_eq_true, if_false,
          Except.ok.injEq, Prod.mk.injEq] at hok
        obtain ⟨h1, _⟩ := hok
        subst h1
        refine ⟨rfl, rfl, rfl, ?_⟩
        have hj1 : j.id = eid := by
          have := List.find?_some hf
          simpa using this
        have hj2 : j ∈ st.entries := List.mem_of_find?_eq_some hf
        exact length_filter_out_key Entry.id eid st.entries hnodup ⟨j, hj2, hj1⟩
      · have hbu : (j.user == uid) = false := by simp [hu]
        simp only [hbu, Bool.not_false, if_true] at hok
        cases hok

/-- C9 witness: a concrete owner-requested delete succeeds. -/
def entryC9 : Entry :=
  { id := 1, user := 7, title := "T", content := "C", createdAt := 1, updatedAt := 1 }

/-- Concrete server state for the delete witness. -/
def stC9 : St := { users := [7], entries := [entryC9], versions := [], now := 5, nextId := 2 }

/-- Witness for C9: the delete gate is satisfied at a concrete state. -/
theorem delete_owner_gated_witness : (deleteJournal stC9 7 1).isOk = true :=
  (delete_owner_gated_and_versions_preserved stC9 7 1 (by decide)).1.mpr
    ⟨entryC9, by decide, by decide⟩

/-- C6: a socket connection attempt with a missing token, a token that fails
verification, or a token whose user no longer exists is refused with a
nonempty reason, and the whole session is inert: whatever joinEntry, typing
or save messages the client would send, the server state is unchanged and
nothing but the refusal is emitted. -/
theorem unauthenticated_session_refused
    (st : St) (jwtVerify : String → Option Nat) (token : Option String)
    (msgs : List ClientMsg)
    (h : token = none
       ∨ (∃ t, token = some t ∧ jwtVerify t = none)
       ∨ (∃ t uid, token = some t ∧ jwtVerify t = some uid
            ∧ st.users.contains uid = false)) :
    ∃ reason, reason ≠ ""
      ∧ socketAuth st jwtVerify token = Except.error reason
      ∧ runSession st jwtVerify token msgs = (st, [Effect.refused reason]) := by
  rcases h with h | ⟨t, ht, hv⟩ | ⟨t, uid, ht, hv, hu⟩
  · subst h
    exact ⟨_, by simp, rfl, rfl⟩
  · subst ht
    refine ⟨"Authentication error: Invalid token.", by simp, ?_, ?_⟩
    · unfold socketAuth
      simp only [hv]
    · unfold runSession socketAuth
      simp only [hv]
  · subst ht
    have hu2 : uid ∉ st.users := by simpa using hu
    refine ⟨"Authentication error: User not found.", by simp, ?_, ?_⟩
    · unfold socketAuth
      simp [hv, hu2]
    · unfold runSession socketAuth
      simp [hv, hu2]

/-- Concrete server state for the refused-session witness. -/
def stC6 : St := { users := [7], entries := [], versions := [], now := 0, nextId := 1 }

/-- Witness for C6: a session presenting a token that fails verification is
refused and inert, even though it tries to join a room and save. -/
theorem unauthenticated_session_refused_witness :
    ∃ reason, reason ≠ ""
      ∧ socketAuth stC6 (fun _ => none) (some "expired") = Except.error reason
      ∧ runSession stC6 (fun _ => none) (some "expired")
          [ClientMsg.joinEntry (some 1), ClientMsg.save (some 1) "c" "t"] =
          (stC6, [Effect.refused reason]) :=
  unauthenticated_session_refused stC6 (fun _ => none) (some "expired")
    [ClientMsg.joinEntry (some 1), ClientMsg.save (some 1) "c" "t"]
    (Or.inr (Or.inl ⟨"expired", rfl, rfl⟩))

/-- Entry stored before the C10 counterexample update. -/
def entryC10 : Entry :=
  { id := 1, user := 7, title := "a", content := "b", mood := none,
    tags := ["t"], createdAt := 3, updatedAt := 5 }

/-- Server state for the C10 counterexample, with the clock ahead of the
stored modification timestamp. -/
def stC10 : St := { users := [7], entries := [entryC10], versions := [], now := 6, nextId := 2 }

/-- The entry as stored after the C10 counterexample update. -/
def entryC10Updated : Entry := { entryC10 with title := "X", updatedAt := 6 }

/-- C10 counterexample: an owner update that supplies only a new title also
modifies the `updatedAt` field (mongoose timestamps stamp it on save), so a
field other than title and content is modified by the update. -/
theorem updateJournal_modifies_updatedAt :
    updateJournal stC10 7 1 (some "X") none =
      Except.ok (putEntry stC10 entryC10Updated, entryC10Updated)
    ∧ entryC10Updated.updatedAt ≠ entryC10.updatedAt := by
  constructor
  · rfl
  · decide

/-- C10 as amended: an owner update leaves the entry's user, mood, tags and
createdAt (and every other entry, and the versions and users collections)
unmodified, keeps the stored title/content whenever the corresponding request
field is absent or falsy, and — beyond title and content — touches only the
automatically managed `updatedAt` timestamp; when both fields are falsy (and
the stored title is already trimmed, as every title written through the
application is) the document is not modified at all. -/
theorem updateJournal_frame
    (st : St) (uid eid : Nat) (title content : Option String)
    (st1 : St) (e1 j : Entry)
    (hj : findEntryById st eid = some j)
    (h : updateJournal st uid eid title content = Except.ok (st1, e1)) :
    e1.id = j.id ∧ e1.user = j.user ∧ e1.mood = j.mood ∧ e1.tags = j.tags
    ∧ e1.createdAt = j.createdAt
    ∧ st1.versions = st.versions ∧ st1.users = st.users
    ∧ st1.entries = st.entries.map (fun x => if x.id == j.id then e1 else x)
    ∧ (truthy title = false → e1.title = jsTrim j.title)
    ∧ (truthy content = false → e1.content = j.content)
    ∧ (truthy title = false → truthy content = false → jsTrim j.title = j.title →
        e1 = j) := by
  unfold updateJournal at h
  rw [hj] at h
  by_cases hu : j.user = uid
  case neg =>
    have hbu : (j.user == uid) = false := by simp [hu]
    simp only [hbu, Bool.not_false, if_true] at h
    cases h
  have hbu : (j.user == uid) = true := by simp [hu]
  simp only [hbu, Bool.not_true, Bool.false_eq_true, if_false] at h
  unfold saveEntryDoc entryPreSaveHook at h
  simp only [Bool.false_eq_true, if_false] at h
  by_cases hval :
      validEntry
        { j with title := jsTrim (jsOrElse title j.title),
                 content := jsOrElse content j.content } = true
  case neg =>
    have hvb : (!validEntry
        { j with title := jsTrim (jsOrElse title j.title),
                 content := jsOrElse content j.content }) = true := by
      simp [hval]
    rw [if_pos hvb] at h
    cases h
  have hvb : (!validEntry
      { j with title := jsTrim (jsOrElse title j.title),
               content := jsOrElse content j.content }) = false := by
    simp [hval]
  rw [hvb] at h
  simp only [Bool.false_eq_true, if_false, Except.ok.injEq, Prod.mk.injEq] at h
  obtain ⟨hst1, he1⟩ := h
  subst hst1
  by_cases hmod :
      (!(jsTrim (jsOrElse title j.title) == j.title) ||
       !(jsOrElse content j.content == j.content)) = true
  · rw [if_pos hmod] at he1 ⊢
    subst he1
    refine ⟨rfl, rfl, rfl, rfl, rfl, rfl, rfl, rfl, ?_, ?_, ?_⟩
    · intro ht; simp [jsOrElse, ht]
    · intro hc; simp [jsOrElse, hc]
    · intro ht hc htr
      exfalso
      simp only [jsOrElse, ht, hc, Bool.false_eq_true, if_false] at hmod
      simp [htr] at hmod
  · rw [if_neg (by simpa using hmod)] at he1 ⊢
    subst he1
    simp only [Bool.or_eq_true, Bool.not_eq_true', beq_eq_false_iff_ne, ne_eq,
      not_or, not_not] at hmod
    obtain ⟨hmt, hmc⟩ := hmod
    refine ⟨rfl, rfl, rfl, rfl, rfl, rfl, rfl, rfl, ?_, ?_, ?_⟩
    · intro ht; simp [jsOrElse, ht]
    · intro hc; exact hmc
    · intro ht hc htr
      have hti : jsTrim (jsOrElse title j.title) = j.title := by
        simp only [jsOrElse, ht, Bool.false_eq_true, if_false]
        exact htr
      rw [hti, hmc]

/-- Witness for C10's amended theorem: the frame conditions hold at the
concrete counterexample state. -/
theorem updateJournal_frame_witness :
    entryC10Updated.user = entryC10.user ∧ entryC10Updated.tags = entryC10.tags :=
  have h := updateJournal_frame stC10 7 1 (some "X") none
    (putEntry stC10 entryC10Updated) entryC10Updated entryC10 (by rfl) (by rfl)
  ⟨h.2.1, h.2.2.2.1⟩

/-- Entry for the concrete restore failing input. -/
def entryC1 : Entry :=
  { id := 1, user := 7, title := "A", content := "B", createdAt := 1, updatedAt := 2 }

/-- A version belonging (through the schema path `entry`) to that entry. -/
def verC1 : Version :=
  { id := 5, entry := 1, user := 7, title := "Old title", content := "Old content",
    source := "manual", createdAt := 3 }

/-- State for the concrete restore failing input: the requester owns the
entry and the target version exists and belongs to it. -/
def stC1 : St := { users := [7], entries := [entryC1], versions := [verC1], now := 9, nextId := 6 }

/-- C1: whenever the requesting user owns the entry and the target version
exists — in particular when it belongs to the entry — restore does not
succeed: it throws reading `versionToRestore.entryId` (not a schema path) and
surfaces a TypeError, so no `restore`-sourced snapshot is created and the
entry is never overwritten. -/
theorem restore_throws_for_owner_and_version
    (st : St) (uid eid vid : Nat) (e : Entry) (v : Version)
    (he : findEntryById st eid = some e) (hu : e.user = uid)
    (hv : findVersionById st vid = some v) :
    restoreVersion st uid eid vid =
      Except.error (HErr.jsError
        "TypeError: Cannot read properties of undefined (reading toString)") := by
  unfold restoreVersion
  simp only [he, hu, hv, beq_self_eq_true, Bool.not_true, Bool.false_eq_true, if_false,
    Version.readEntryId]

/-- Witness for C1: the restore failure at the concrete failing input. -/
theorem restore_throws_for_owner_and_version_witness :
    restoreVersion stC1 7 1 5 =
      Except.error (HErr.jsError
        "TypeError: Cannot read properties of undefined (reading toString)") :=
  restore_throws_for_owner_and_version stC1 7 1 5 entryC1 verC1 rfl rfl rfl

/-- C4: no execution of restore ever reports success — every control path of
restoreVersion ends in an error response (403, 404, or a thrown
TypeError/ValidationError), so in particular no success response is produced
after a failed overwrite, and this controller never broadcasts anything. -/
theorem restore_never_reports_success (st : St) (uid eid vid : Nat) :
    (restoreVersion st uid eid vid).isOk = false := by
  unfold restoreVersion
  split
  · rfl
  · split
    · rfl
    · split
      · rfl
      · rfl

/-- Entry for the version-listing failing input. -/
def entryC7 : Entry :=
  { id := 1, user := 7, title := "A", content := "B", createdAt := 1, updatedAt := 1 }

/-- A stored version belonging to that entry through the schema path
`entry`. -/
def verC7 : Version :=
  { id := 5, entry := 1, user := 7, title := "Old", content := "OldC",
    source := "manual", createdAt := 2 }

/-- State for the version-listing failing input. -/
def stC7 : St := { users := [7, 8], entries := [entryC7], versions := [verC7], now := 9, nextId := 6 }

/-- C7: the ownership gate of the version listing answers 404 for a
non-owner, but for the owner the listing returns the empty list even though a
version of the entry exists in the collection (the controller queries the
non-schema path `entryId` instead of the schema path `entry`), so the result
does not contain exactly the entry's versions. -/
theorem listing_misses_existing_versions :
    getEntryVersions stC7 7 1 = Except.ok []
    ∧ stC7.versions.filter (fun v => v.entry == 1) = [verC7]
    ∧ getEntryVersions stC7 8 1 =
        Except.error (HErr.notFound
          "Entry not found or you do not have permission to view it.") :=
  ⟨rfl, rfl, rfl⟩

/-- Initial state of the end-to-end scenario: one registered user, empty
collections. -/
def stC2a : St := { users := [7], entries := [], versions := [], now := 20, nextId := 1 }

/-- The entry created with title "Draft". -/
def entryC2 : Entry :=
  { id := 1, user := 7, title := "Draft", content := "d", createdAt := 20, updatedAt := 20 }

/-- State after creating the entry. -/
def stC2b : St := { users := [7], entries := [entryC2], versions := [], now := 20, nextId := 2 }

/-- The entry after the first realtime save. -/
def entryC2v1 : Entry := { entryC2 with content := "v1" }

/-- State after the first realtime save. -/
def stC2c : St := { stC2b with entries := [entryC2v1] }

/-- The entry after the second realtime save. -/
def entryC2v2 : Entry := { entryC2 with content := "v2" }

/-- State after the second realtime save. -/
def stC2d : St := { stC2b with entries := [entryC2v2] }

/-- The entry after the third realtime save. -/
def entryC2v3 : Entry := { entryC2 with content := "v3" }

/-- State after the third realtime save. -/
def stC2e : St := { stC2b with entries := [entryC2v3] }

/-- C2: running the end-to-end scenario — create an entry titled "Draft",
save it three times over the realtime channel with contents "v1", "v2", "v3"
— leaves the versions collection empty (the save handler writes no Version
documents), every restore attempt then fails with 404 (there is no version to
restore to), and the entry ends with content "v3", not "v1"; in particular
the total number of versions is 0, not 4. -/
theorem scenario_saves_create_no_versions_and_restore_fails :
    createJournal stC2a 7 (some "Draft") (some "d") = Except.ok (stC2b, entryC2)
    ∧ handleSave stC2b 7 (some 1) "v1" "Draft" =
        (stC2c, [Effect.toRoom 1 (SEvent.synced 1 20 "Entry saved successfully.")])
    ∧ handleSave stC2c 7 (some 1) "v2" "Draft" =
        (stC2d, [Effect.toRoom 1 (SEvent.synced 1 20 "Entry saved successfully.")])
    ∧ handleSave stC2d 7 (some 1) "v3" "Draft" =
        (stC2e, [Effect.toRoom 1 (SEvent.synced 1 20 "Entry saved successfully.")])
    ∧ stC2e.versions = []
    ∧ getEntryVersions stC2e 7 1 = Except.ok []
    ∧ (∀ vid, restoreVersion stC2e 7 1 vid =
        Except.error (HErr.notFound "Version to restore not found for this entry."))
    ∧ (findEntryById stC2e 1).map Entry.content = some "v3"
    ∧ stC2e.versions.length ≠ 4 := by
  refine ⟨rfl, rfl, rfl, rfl, rfl, rfl, ?_, rfl, by decide⟩
  intro vid
  rfl

/-- Entry owned by user 2, used by the denied-save witness. -/
def entryC3 : Entry :=
  { id := 1, user := 2, title := "T", content := "C", createdAt := 0, updatedAt := 0 }

/-- State for the denied-save witness: user 3 will try to save entry 1. -/
def stC3 : St := { users := [2, 3], entries := [entryC3], versions := [], now := 4, nextId := 9 }

/-- Witness for C3: a save by a non-owner at a concrete state yields exactly
one sender-scoped saveError and no state change. -/
theorem save_denied_is_sender_scoped_and_pure_witness :
    handleSave stC3 3 (some 1) "c" "t" =
      (stC3, [Effect.toSender (SEvent.saveError (some 1)
        "Save failed: Entry not found or permission denied.")]) :=
  (save_denied_is_sender_scoped_and_pure stC3 3 1 "c" "t" (by decide)).1

/-- Entry owned by user 2, used by the successful-save witness. -/
def entryC5 : Entry :=
  { id := 1, user := 2, title := "T", content := "C", createdAt := 0, updatedAt := 0 }

/-- State for the successful-save witness. -/
def stC5 : St := { users := [2], entries := [entryC5], versions := [], now := 8, nextId := 9 }

/-- Witness for C5: an owner save at a concrete state updates the entry and
broadcasts `synced` with the fresh timestamp to the room. -/
theorem save_success_broadcasts_synced_witness :
    handleSave stC5 2 (some 1) "newC" " newT " =
      (putEntry stC5
        { entryC5 with content := "newC", title := jsTrim " newT ", updatedAt := stC5.now },
       [Effect.toRoom 1 (SEvent.synced entryC5.id stC5.now "Entry saved successfully.")]) :=
  (save_success_broadcasts_synced stC5 2 1 "newC" " newT " entryC5 (by decide)).1

/-- Entry used by the tag-sanitation witness. -/
def entryC8 : Entry := { id := 1, user := 2, title := "T", content := "C" }

/-- Witness for C8: the concrete submission from the specification stores
exactly the trimmed nonempty tags. -/
theorem tags_sanitized_on_save_witness :
    (entryPreSaveHook { entryC8 with tags := [" work ", "", "Life "] } true).tags
      = ["work", "Life"] :=
  (tags_sanitized_on_save entryC8 [" work ", "", "Life "]).2.2 rfl

end BatchBook
